import Mathlib

/-!
Verification of the device-communication layer of the tadek-ui client
(`src/devices.py`, `src/utils.py`): shallow embedding of the signal-emitting
slots of `DeviceObject`, `DevicesDialog`, `DeviceConfigDialog`, the Qt
`Queue` wrapper and the `LastValues` autocompletion store, together with
theorems settling the specification claims about them.
-/

namespace TadekUI

/-- The Qt signals a `DeviceObject` can emit
(`connected`, `disconnected`, `requestSent(int)`, `responseReceived(int)`,
`errorOccurred` in `src/devices.py`). -/
inductive Signal where
  | connected : Signal
  | disconnected : Signal
  | requestSent : Int → Signal
  | responseReceived : Int → Signal
  | errorOccurred : Signal
  deriving DecidableEq

/-- Embedding of `DeviceObject._responseReceived` (src/devices.py lines
137-149).  The slot receives an inbound message id; given the two protocol
sentinels `DEFAULT_MSG_ID` and `ERROR_MSG_ID` (imported from
`tadek.connection.protocol`, passed here as parameters) and the current
`_connected` flag, it returns the list of Qt signals it emits together with
the `_connected` flag afterwards.  The body mirrors the Python source:
`if id > DEFAULT_MSG_ID: emit responseReceived(id)` /
`elif id == ERROR_MSG_ID: if _connected: emit errorOccurred else log`;
the method never assigns `self._connected`, so the flag is returned
unchanged on every path. -/
def DeviceObject.responseReceivedSlot (DEFAULT_MSG_ID ERROR_MSG_ID : Int)
    (connected : Bool) (id : Int) : List Signal × Bool :=
  if DEFAULT_MSG_ID < id then
    ([Signal.responseReceived id], connected)
  else if id = ERROR_MSG_ID then
    if connected then ([Signal.errorOccurred], connected)
    else ([], connected)
  else ([], connected)

/-- Embedding of `Queue._notifyAllDone` (src/devices.py lines 72-79): after
delegating to the base `queue.Queue` bookkeeping, the override replaces a
`None` id by `-1` and emits the `allDone` Qt signal once with it.  The
result is the list of arguments carried by the emitted `allDone` signals. -/
def Queue.notifyAllDone (id : Option Int) : List Int :=
  [id.getD (-1)]

/-- C5: Whenever the Queue reports that all tasks of a given id are done, the
`allDone` Qt signal is emitted exactly once per such notification, carrying
the id itself when the id is not None and carrying `-1` when the
notification is for all ids (id is None). -/
theorem Queue.notifyAllDone_emits_once (i : Int) :
    Queue.notifyAllDone (some i) = [i] ∧
    Queue.notifyAllDone none = [-1] ∧
    (∀ id : Option Int, (Queue.notifyAllDone id).length = 1) := by
  refine ⟨rfl, rfl, ?_⟩
  intro id
  cases id <;> rfl

/-- C1: For every inbound message id delivered to
`DeviceObject._responseReceived` (with the sentinels satisfying
`ERROR_MSG_ID ≤ DEFAULT_MSG_ID`, as the protocol reserves both below the
caller-issued range): if `id > DEFAULT_MSG_ID` then the `responseReceived`
signal is emitted exactly once carrying that id; if `id = ERROR_MSG_ID` and
`_connected` is true then `errorOccurred` is emitted; if `id = ERROR_MSG_ID`
and `_connected` is false then no signal at all is emitted. -/
theorem DeviceObject.responseReceivedSlot_dispatch
    (DEFAULT_MSG_ID ERROR_MSG_ID : Int) (connected : Bool) (id : Int)
    (hE : ERROR_MSG_ID ≤ DEFAULT_MSG_ID) :
    (DEFAULT_MSG_ID < id →
      (DeviceObject.responseReceivedSlot DEFAULT_MSG_ID ERROR_MSG_ID
        connected id).1 = [Signal.responseReceived id]) ∧
    (id = ERROR_MSG_ID → connected = true →
      (DeviceObject.responseReceivedSlot DEFAULT_MSG_ID ERROR_MSG_ID
        connected id).1 = [Signal.errorOccurred]) ∧
    (id = ERROR_MSG_ID → connected = false →
      (DeviceObject.responseReceivedSlot DEFAULT_MSG_ID ERROR_MSG_ID
        connected id).1 = []) := by
  unfold DeviceObject.responseReceivedSlot
  refine ⟨?_, ?_, ?_⟩
  · intro h
    simp [h]
  · intro h hc
    subst h hc
    simp [not_lt.mpr hE]
  · intro h hc
    subst h hc
    simp [not_lt.mpr hE]

/-- Witness for C1 at the concrete sentinels `DEFAULT_MSG_ID = 0`,
`ERROR_MSG_ID = -1` and ids `5` and `-1`. -/
theorem DeviceObject.responseReceivedSlot_dispatch_witness :
    (DeviceObject.responseReceivedSlot 0 (-1) true 5).1 =
      [Signal.responseReceived 5] ∧
    (DeviceObject.responseReceivedSlot 0 (-1) true (-1)).1 =
      [Signal.errorOccurred] ∧
    (DeviceObject.responseReceivedSlot 0 (-1) false (-1)).1 = [] :=
  ⟨(DeviceObject.responseReceivedSlot_dispatch 0 (-1) true 5
      (by decide)).1 (by decide),
   (DeviceObject.responseReceivedSlot_dispatch 0 (-1) true (-1)
      (by decide)).2.1 rfl rfl,
   (DeviceObject.responseReceivedSlot_dispatch 0 (-1) false (-1)
      (by decide)).2.2 rfl rfl⟩

/-- C10: For every message id with `id ≤ DEFAULT_MSG_ID` and
`id ≠ ERROR_MSG_ID`, `DeviceObject._responseReceived` emits no signal at all
and leaves the `_connected` flag unchanged. -/
theorem DeviceObject.responseReceivedSlot_frame
    (DEFAULT_MSG_ID ERROR_MSG_ID : Int) (connected : Bool) (id : Int)
    (h1 : id ≤ DEFAULT_MSG_ID) (h2 : id ≠ ERROR_MSG_ID) :
    DeviceObject.responseReceivedSlot DEFAULT_MSG_ID ERROR_MSG_ID
      connected id = ([], connected) := by
  unfold DeviceObject.responseReceivedSlot
  simp [not_lt.mpr h1, h2]

/-- Witness for C10 at `DEFAULT_MSG_ID = 0`, `ERROR_MSG_ID = -1`,
`id = -2`. -/
theorem DeviceObject.responseReceivedSlot_frame_witness :
    DeviceObject.responseReceivedSlot 0 (-1) true (-2) = ([], true) :=
  DeviceObject.responseReceivedSlot_frame 0 (-1) true (-2)
    (by decide) (by decide)

/-- A Python exception raised by the request function invoked from
`DeviceObject.requestDevice`: either a `tadek.connection.ConnectionError`
or any other exception (distinguished by an arbitrary code). -/
inductive PyExc where
  | connectionError : PyExc
  | otherExc : Nat → PyExc
  deriving DecidableEq

/-- The error object that `DeviceObject.requestDevice` hands to
`log.exception`: the original `ConnectionError`, or any other exception
wrapped into a `client.Error`. -/
inductive WireError where
  | connectionError : WireError
  | clientError : PyExc → WireError
  deriving DecidableEq

/-- The wrapping step of `DeviceObject.requestDevice` (src/devices.py lines
128-131): `if not isinstance(err, ConnectionError): err = client.Error(err)`. -/
def wrapError : PyExc → WireError
  | PyExc.connectionError => WireError.connectionError
  | PyExc.otherExc c => WireError.clientError (PyExc.otherExc c)

/-- The observable outcome of one `DeviceObject.requestDevice` call: the
error passed to `log.exception` (if any), the Qt signals emitted, and the
value returned to the caller. -/
structure RequestOutcome where
  logged : Option WireError
  emitted : List Signal
  result : Option Int
  deriving DecidableEq

/-- Embedding of `DeviceObject.requestDevice` (src/devices.py lines
121-134).  The underlying request function call
`getattr(self, reqfunc)(*args, **kwargs)` is represented by its outcome
`call`: an exception or a returned id.  On an exception the error is
wrapped (unless already a `ConnectionError`), logged, and the method falls
through returning `None`; otherwise `requestSent` is emitted with the id
and the id is returned. -/
def DeviceObject.requestDevice (call : Except PyExc Int) : RequestOutcome :=
  match call with
  | Except.error err => ⟨some (wrapError err), [], none⟩
  | Except.ok id => ⟨none, [Signal.requestSent id], some id⟩

/-- C2: If the underlying request function raises, the exception (wrapped
into a `client.Error` unless it is already a `ConnectionError`) is logged,
no `requestSent` signal is emitted, and `None` is returned; if it returns
an id, `requestSent` is emitted exactly once with that id and the same id
is returned. -/
theorem DeviceObject.requestDevice_spec (err : PyExc) (c : Nat) (id : Int) :
    DeviceObject.requestDevice (Except.error err) =
      ⟨some (wrapError err), [], none⟩ ∧
    wrapError PyExc.connectionError = WireError.connectionError ∧
    wrapError (PyExc.otherExc c) =
      WireError.clientError (PyExc.otherExc c) ∧
    DeviceObject.requestDevice (Except.ok id) =
      ⟨none, [Signal.requestSent id], some id⟩ ∧
    ((DeviceObject.requestDevice (Except.ok id)).emitted.count
      (Signal.requestSent id) = 1) := by
  refine ⟨rfl, rfl, rfl, rfl, ?_⟩
  simp [DeviceObject.requestDevice]

/-- The connection state of a device as seen by the UI wrapper: `low` is
the state of the underlying `tadek.connection.device.Device` connection and
`flag` is the wrapper's own `_connected` attribute
(`DeviceObject.__init__` sets it to `False`). -/
structure DeviceState where
  low : Bool
  flag : Bool
  deriving DecidableEq

/-- Modelled from the spec: the underlying `device.Device.connect` method
(`tadek.connection.device`, not part of this repository).  Per the spec,
`connect()` while already `Connected` is a no-op returning success, and the
state machine is `Disconnected -[connect() succeeds]-> Connected`; so the
call reports success and leaves the low-level connection up. -/
def underlyingConnect (_low : Bool) : Bool × Bool :=
  (true, true)

/-- Modelled from the spec: the underlying `device.Device.disconnect`
method (`tadek.connection.device`, not part of this repository).  Per the
spec, `disconnect()` while already `Disconnected` is symmetrically a
no-op: it reports whether a live connection was actually torn down, and
leaves the low-level connection down. -/
def underlyingDisconnect (low : Bool) : Bool × Bool :=
  (low, false)

/-- Embedding of `DeviceObject.connectDevice` (src/devices.py lines
105-111): `if self._connectDevice(...): self._connected = True;
self.connected.emit()`.  Returns the new state and the emitted signals. -/
def DeviceObject.connectDevice (s : DeviceState) : DeviceState × List Signal :=
  let r := underlyingConnect s.low
  if r.1 then (⟨r.2, true⟩, [Signal.connected])
  else (⟨r.2, s.flag⟩, [])

/-- Embedding of `DeviceObject.disconnectDevice` (src/devices.py lines
113-119): `if self._disconnectDevice(...) or self._connected:
self._connected = False; self.disconnected.emit()`. -/
def DeviceObject.disconnectDevice (s : DeviceState) :
    DeviceState × List Signal :=
  let r := underlyingDisconnect s.low
  if r.1 || s.flag then (⟨r.2, false⟩, [Signal.disconnected])
  else (⟨r.2, s.flag⟩, [])

/-- C3: Calling `connectDevice()` a second time with no intervening
`disconnectDevice()` leaves the device Connected and emits the `connected`
signal at most once more; calling `disconnectDevice()` when already
Disconnected (both the underlying connection and the `_connected` flag
down) leaves the device Disconnected and emits no signal. -/
theorem DeviceObject.connect_disconnect_idempotent (s : DeviceState) :
    ((DeviceObject.connectDevice (DeviceObject.connectDevice s).1).1.flag
        = true ∧
     (DeviceObject.connectDevice (DeviceObject.connectDevice s).1).1.low
        = true ∧
     (DeviceObject.connectDevice
        (DeviceObject.connectDevice s).1).2.length ≤ 1) ∧
    DeviceObject.disconnectDevice ⟨false, false⟩ = (⟨false, false⟩, []) := by
  refine ⟨⟨?_, ?_, ?_⟩, ?_⟩ <;>
    simp [DeviceObject.connectDevice, DeviceObject.disconnectDevice,
      underlyingConnect, underlyingDisconnect]

/-- An error retrievable through `Device.getError()`, following the error
taxonomy of the client layer: a `client.ConnectionLostError`, a codec
error, or any other client error (distinguished by an arbitrary code). -/
inductive DevError where
  | connectionLost : DevError
  | codecError : DevError
  | clientError : Nat → DevError
  deriving DecidableEq

/-- The `isinstance(err, client.ConnectionLostError)` test of
`DevicesDialog._errorOccurred`. -/
def DevError.isConnectionLost : DevError → Bool
  | DevError.connectionLost => true
  | DevError.codecError => false
  | DevError.clientError _ => false

/-- The observable outcome of one `DevicesDialog._errorOccurred` slot call
for a single device: the `_errors` entry kept for the device afterwards,
whether the error was logged, and whether a disconnection of the device was
initiated (`self._updateConnectionState(False, dev)`). -/
structure ErrorSlotOutcome where
  errors : Option DevError
  logged : Bool
  disconnectInitiated : Bool
  deriving DecidableEq

/-- Embedding of `DevicesDialog._errorOccurred` (src/devices.py lines
504-519), restricted to one device: the slot fetches `dev.getError()`,
always logs it, and only when it is a `ConnectionLostError` shows an error
dialog, records the error in `self._errors[dev]` and initiates
disconnection of the device; otherwise it leaves the recorded entry and
the connection state untouched. -/
def DevicesDialog.errorOccurredSlot (errors : Option DevError)
    (err : DevError) : ErrorSlotOutcome :=
  if err.isConnectionLost then ⟨some err, true, true⟩
  else ⟨errors, true, false⟩

/-- C4: `DevicesDialog._errorOccurred` initiates disconnection of the
device if and only if `getError()` returned a `ConnectionLostError`; for
every other error kind it only logs the error and leaves both the recorded
`_errors` entry and the device's connection state unchanged. -/
theorem DevicesDialog.errorOccurredSlot_spec (errors : Option DevError)
    (err : DevError) (c : Nat) :
    ((DevicesDialog.errorOccurredSlot errors err).disconnectInitiated = true
        ↔ err.isConnectionLost = true) ∧
    DevicesDialog.errorOccurredSlot errors DevError.connectionLost =
      ⟨some DevError.connectionLost, true, true⟩ ∧
    DevicesDialog.errorOccurredSlot errors DevError.codecError =
      ⟨errors, true, false⟩ ∧
    DevicesDialog.errorOccurredSlot errors (DevError.clientError c) =
      ⟨errors, true, false⟩ := by
  refine ⟨?_, ?_, ?_, ?_⟩ <;>
    cases err <;>
      simp [DevicesDialog.errorOccurredSlot, DevError.isConnectionLost]

/-- Embedding of `DevicesDialog._deviceDisconnected` (src/devices.py lines
472-478), restricted to one device: the slot emits the `disconnected`
signal with the boolean `self._errors.pop(dev, None) is not None`, removing
the recorded entry.  Returns the `_errors` entry afterwards and the emitted
boolean. -/
def DevicesDialog.deviceDisconnectedSlot (errors : Option DevError) :
    Option DevError × Bool :=
  (none, errors.isSome)

/-- An event observed by `DevicesDialog` for one device: its
`errorOccurred` signal (carrying the error `getError()` will return), or
its `disconnected` signal. -/
inductive DlgEvent where
  | errOccurred : DevError → DlgEvent
  | devDisconnected : DlgEvent
  deriving DecidableEq

/-- One step of the `DevicesDialog` slot machinery for one device: the new
`_errors` entry and the booleans emitted on the dialog's `disconnected`
signal during the step. -/
def DevicesDialog.dlgStep (errors : Option DevError) :
    DlgEvent → Option DevError × List Bool
  | DlgEvent.errOccurred e =>
      ((DevicesDialog.errorOccurredSlot errors e).errors, [])
  | DlgEvent.devDisconnected =>
      let r := DevicesDialog.deviceDisconnectedSlot errors
      (r.1, [r.2])

/-- Runs a sequence of device events through the `DevicesDialog` slots,
threading the `_errors` entry and collecting the booleans emitted on the
dialog's `disconnected` signal. -/
def DevicesDialog.dlgRun (errors : Option DevError) :
    List DlgEvent → Option DevError × List Bool
  | [] => (errors, [])
  | e :: es =>
      let r := DevicesDialog.dlgStep errors e
      let r2 := DevicesDialog.dlgRun r.1 es
      (r2.1, r.2 ++ r2.2)

/-- Whether a list of device events contains an `errorOccurred` carrying a
`ConnectionLostError`. -/
def hasConnLost (evs : List DlgEvent) : Bool :=
  evs.any fun e =>
    match e with
    | DlgEvent.errOccurred k => k.isConnectionLost
    | DlgEvent.devDisconnected => false

/-- Auxiliary: over a stretch of events with no disconnection, the dialog
emits nothing on `disconnected` and the `_errors` entry afterwards is
occupied exactly when it was occupied before or a `ConnectionLostError`
arrived. -/
theorem dlgRun_noDisconnect (evs : List DlgEvent) (s : Option DevError)
    (h : ∀ e ∈ evs, e ≠ DlgEvent.devDisconnected) :
    (DevicesDialog.dlgRun s evs).2 = [] ∧
    ((DevicesDialog.dlgRun s evs).1).isSome =
      (s.isSome || hasConnLost evs) := by
  induction evs generalizing s with
  | nil => simp [DevicesDialog.dlgRun, hasConnLost]
  | cons e es ih =>
    cases e with
    | errOccurred k =>
      have h' : ∀ e ∈ es, e ≠ DlgEvent.devDisconnected := by
        intro x hx
        exact h x (List.mem_cons_of_mem _ hx)
      have := ih ((DevicesDialog.errorOccurredSlot s k).errors) h'
      cases k <;>
        simp_all [DevicesDialog.dlgRun, DevicesDialog.dlgStep,
          DevicesDialog.errorOccurredSlot, DevError.isConnectionLost,
          hasConnLost]
    | devDisconnected =>
      exact absurd rfl (h _ (List.mem_cons_self _ _))

/-- Auxiliary: running a concatenation of event lists threads the state
through the first list and concatenates the emitted booleans. -/
theorem dlgRun_append (xs ys : List DlgEvent) (s : Option DevError) :
    DevicesDialog.dlgRun s (xs ++ ys) =
      ((DevicesDialog.dlgRun (DevicesDialog.dlgRun s xs).1 ys).1,
       (DevicesDialog.dlgRun s xs).2 ++
         (DevicesDialog.dlgRun (DevicesDialog.dlgRun s xs).1 ys).2) := by
  induction xs generalizing s with
  | nil => simp [DevicesDialog.dlgRun]
  | cons e es ih =>
    simp [DevicesDialog.dlgRun, ih]

/-- C9: The boolean carried by the dialog's `disconnected` signal is true
exactly when a `ConnectionLostError` was recorded via `_errorOccurred`
since the device's previous disconnection, and emitting the signal
consumes the record: running a disconnection, then any stretch of
error events with no disconnection, then a second disconnection, emits
first whatever was recorded before and then precisely whether the stretch
contained a `ConnectionLostError` (so with no new error the second
emission is false). -/
theorem DevicesDialog.disconnected_flag_spec (s : Option DevError)
    (evs : List DlgEvent)
    (h : ∀ e ∈ evs, e ≠ DlgEvent.devDisconnected) :
    (DevicesDialog.dlgRun s (DlgEvent.devDisconnected ::
        (evs ++ [DlgEvent.devDisconnected]))).2 =
      [s.isSome, hasConnLost evs] := by
  have hmain := dlgRun_noDisconnect evs none h
  simp [DevicesDialog.dlgRun, DevicesDialog.dlgStep,
    DevicesDialog.deviceDisconnectedSlot,
    dlgRun_append evs [DlgEvent.devDisconnected], hmain.1, hmain.2]

/-- Witness for C9: starting with a recorded `ConnectionLostError`, a
disconnection emits true; after one non-fatal codec error and no new
`ConnectionLostError`, the next disconnection emits false. -/
theorem DevicesDialog.disconnected_flag_spec_witness :
    (DevicesDialog.dlgRun (some DevError.connectionLost)
        (DlgEvent.devDisconnected ::
          ([DlgEvent.errOccurred DevError.codecError] ++
            [DlgEvent.devDisconnected]))).2 = [true, false] :=
  DevicesDialog.disconnected_flag_spec (some DevError.connectionLost)
    [DlgEvent.errOccurred DevError.codecError] (by decide)

/-- The device parameters collected by `DeviceConfigDialog._accept` into
`self.params` (src/devices.py lines 642-649). -/
structure DevParams where
  name : String
  description : String
  address : String
  port : Nat
  connect : Bool
  autoconnect : Bool
  deriving DecidableEq

/-- The observable outcome of one `DeviceConfigDialog._accept` slot call:
the `self.params` attribute afterwards, whether an error message box was
shown, and whether `self.dialog.accept()` was called (false means the
dialog stays open). -/
structure AcceptOutcome where
  params : Option DevParams
  errorShown : Bool
  dialogAccepted : Bool
  deriving DecidableEq

/-- Embedding of `DeviceConfigDialog._accept` (src/devices.py lines
623-651).  `registered name` models `devices.get(name) is not None` in the
device registry; `device` is the name of the device being edited (`none`
when adding a new one); the remaining arguments are the widget contents.
The slot rejects (error dialog, `params` left `None`, dialog kept open)
when the name is empty, the address is empty, or the name belongs to the
registry while not being the edited device's own name; otherwise it fills
`self.params` and accepts the dialog. -/
def DeviceConfigDialog.accept (registered : String → Bool)
    (device : Option String) (name desc address : String) (port : Nat)
    (conn auto : Bool) : AcceptOutcome :=
  if name = "" then ⟨none, true, false⟩
  else if address = "" then ⟨none, true, false⟩
  else if (device.all fun d => d != name) && registered name then
    ⟨none, true, false⟩
  else ⟨some ⟨name, desc, address, port, conn, auto⟩, false, true⟩

/-- C7: `DeviceConfigDialog._accept` sets `self.params` (accepting the
dialog) if and only if the entered name is non-empty, the entered address
is non-empty, and the name is not already registered to a different device
(a registered name is allowed only when it is the edited device's own
name); in every rejecting case `self.params` remains `None`, an error
message is shown, and the dialog stays open. -/
theorem DeviceConfigDialog.accept_spec (registered : String → Bool)
    (device : Option String) (name desc address : String) (port : Nat)
    (conn auto : Bool) :
    ((DeviceConfigDialog.accept registered device name desc address port
        conn auto).params.isSome ↔
      (name ≠ "" ∧ address ≠ "" ∧
        ¬(registered name = true ∧ device ≠ some name))) ∧
    ((DeviceConfigDialog.accept registered device name desc address port
        conn auto).params.isSome = false ↔
      (DeviceConfigDialog.accept registered device name desc address port
        conn auto) = ⟨none, true, false⟩) := by
  unfold DeviceConfigDialog.accept
  rcases device with _ | d
  · split <;> try (rename_i h1)
    · simp_all
    · split <;> try (rename_i h2)
      · simp_all
      · split <;> rename_i h3
        · simp_all [Option.all]
        · simp_all [Option.all]
  · split <;> try (rename_i h1)
    · simp_all
    · split <;> try (rename_i h2)
      · simp_all
      · split <;> rename_i h3
        · simp only [Option.all, Bool.and_eq_true, bne_iff_ne] at h3
          simp_all
        · simp only [Option.all, Bool.and_eq_true, bne_iff_ne] at h3
          push_neg at h3
          by_cases hd : d = name
          · subst hd
            simp_all
          · simp_all

/-- Modelled from the spec: the id-allocation state of
`tadek.connection.client.Client` (the client module is not part of this
repository; only its UI wrappers are).  Per the spec, `send` allocates a
fresh monotonically increasing id per connection, and returned ids are
always greater than `DEFAULT_MSG_ID`. -/
structure ClientState where
  nextId : Int
  deriving DecidableEq

/-- Modelled from the spec: a freshly connected client's id counter starts
just above the `DEFAULT_MSG_ID` floor, so every allocated id exceeds it. -/
def ClientState.ofConnect (DEFAULT_MSG_ID : Int) : ClientState :=
  ⟨DEFAULT_MSG_ID + 1⟩

/-- Modelled from the spec: one successful `send` call returns the next id
and advances the counter. -/
def ClientState.send (s : ClientState) : Int × ClientState :=
  (s.nextId, ⟨s.nextId + 1⟩)

/-- Runs `n` consecutive successful `send` calls, collecting the returned
ids in order. -/
def ClientState.sendSeq : ClientState → Nat → List Int × ClientState
  | s, 0 => ([], s)
  | s, n + 1 =>
      let r := s.send
      let r2 := r.2.sendSeq n
      (r.1 :: r2.1, r2.2)

/-- Auxiliary: the ids produced by `n` sends from state `s` are exactly
`s.nextId, s.nextId + 1, ...`. -/
theorem ClientState.sendSeq_ids (n : Nat) (s : ClientState) :
    (s.sendSeq n).1 =
      (List.range n).map fun i : Nat => s.nextId + (i : Int) := by
  induction n generalizing s with
  | zero => simp [ClientState.sendSeq]
  | succ n ih =>
    simp only [ClientState.sendSeq, ClientState.send, ih,
      List.range_succ_eq_map, List.map_cons, List.map_map]
    congr 1
    · simp
    · apply List.map_congr_left
      intro i _
      simp only [Function.comp_apply, Nat.succ_eq_add_one]
      push_cast
      ring

/-- C8: For every sequence of `send` calls made on a single connected
client, the ids returned by `send` are strictly increasing, no id is ever
returned twice, and every returned id is greater than `DEFAULT_MSG_ID`. -/
theorem ClientState.send_ids_strict_mono (DEFAULT_MSG_ID : Int) (n : Nat) :
    ((ClientState.ofConnect DEFAULT_MSG_ID).sendSeq n).1.Pairwise (· < ·) ∧
    ((ClientState.ofConnect DEFAULT_MSG_ID).sendSeq n).1.Nodup ∧
    ∀ id ∈ ((ClientState.ofConnect DEFAULT_MSG_ID).sendSeq n).1,
      DEFAULT_MSG_ID < id := by
  rw [ClientState.sendSeq_ids]
  have hpw : ((List.range n).map fun i : Nat =>
      (ClientState.ofConnect DEFAULT_MSG_ID).nextId + (i : Int)).Pairwise
        (· < ·) := by
    rw [List.pairwise_map]
    apply List.Pairwise.imp _ (List.pairwise_lt_range n)
    intro a b hab
    have : (a : Int) < b := by exact_mod_cast hab
    omega
  refine ⟨hpw, hpw.imp ne_of_lt, ?_⟩
  intro id hid
  rw [List.mem_map] at hid
  obtain ⟨i, _, hi⟩ := hid
  simp only [ClientState.ofConnect] at hi
  omega

/-- The `utils.LastValues` store (src/utils.py lines 160-201): the
internal list of values and the `max` limit.  Writing through
`config.set` mirrors the internal list, so the configuration side is not
modelled separately. -/
structure LastValues where
  values : List String
  max : Nat
  deriving DecidableEq

/-- Embedding of `LastValues.__init__` (src/utils.py lines 165-176): the
list read from the configuration store is truncated to the first `max`
entries when longer. -/
def LastValues.init (stored : List String) (max : Nat) : LastValues :=
  ⟨stored.take max, max⟩

/-- Embedding of `LastValues.add` (src/utils.py lines 179-188): an already
present value is first removed (Python `list.remove`, first occurrence),
the value is inserted at the front, and the last entry is popped when the
list exceeds `max`. -/
def LastValues.add (lv : LastValues) (value : String) : LastValues :=
  let vs := if value ∈ lv.values then lv.values.erase value else lv.values
  let vs2 := value :: vs
  ⟨if lv.max < vs2.length then vs2.dropLast else vs2, lv.max⟩

/-- Embedding of `LastValues.all` (src/utils.py lines 190-194): returns a
copy of the internal list. -/
def LastValues.all (lv : LastValues) : List String :=
  lv.values

/-- A sequence of `LastValues.add` calls, applied left to right. -/
def LastValues.addAll (lv : LastValues) (vs : List String) : LastValues :=
  vs.foldl LastValues.add lv

/-- The invariant maintained by `LastValues.add`: the internal list has no
duplicates and at most `max` entries. -/
def LastValues.Inv (lv : LastValues) : Prop :=
  lv.values.Nodup ∧ lv.values.length ≤ lv.max

/-- Auxiliary: `add` does not change the `max` limit. -/
theorem LastValues.add_max (lv : LastValues) (v : String) :
    (lv.add v).max = lv.max :=
  rfl

/-- Auxiliary: `add` preserves the `LastValues` invariant. -/
theorem LastValues.add_inv (lv : LastValues) (v : String) (h : lv.Inv) :
    (lv.add v).Inv := by
  obtain ⟨hnd, hlen⟩ := h
  unfold LastValues.add LastValues.Inv
  simp only
  by_cases hv : v ∈ lv.values
  · have hnd1 : (lv.values.erase v).Nodup := hnd.erase v
    have hv1 : v ∉ lv.values.erase v := by
      intro hm
      exact absurd ((List.Nodup.mem_erase_iff hnd).mp hm).1 (by simp)
    have hlen1 : (lv.values.erase v).length = lv.values.length - 1 :=
      List.length_erase_of_mem hv
    have hpos : 0 < lv.values.length :=
      List.length_pos.mpr (List.ne_nil_of_mem hv)
    simp only [if_pos hv]
    have hlen2 : (v :: lv.values.erase v).length ≤ lv.max := by
      simp only [List.length_cons, hlen1]
      omega
    rw [if_neg (by omega)]
    exact ⟨List.nodup_cons.mpr ⟨hv1, hnd1⟩, hlen2⟩
  · simp only [if_neg hv]
    have hnd2 : (v :: lv.values).Nodup := List.nodup_cons.mpr ⟨hv, hnd⟩
    by_cases hgt : lv.max < (v :: lv.values).length
    · rw [if_pos hgt]
      refine ⟨hnd2.sublist (List.dropLast_sublist _), ?_⟩
      rw [List.length_dropLast]
      simp only [List.length_cons]
      omega
    · rw [if_neg hgt]
      exact ⟨hnd2, by omega⟩

/-- Auxiliary: trimming with a limit of at least 1 keeps the head of a
freshly consed list. -/
theorem LastValues.cons_trim_head (m : Nat) (v : String) (vs : List String)
    (hm : 1 ≤ m) :
    (if m < (v :: vs).length then (v :: vs).dropLast
     else (v :: vs)).head? = some v := by
  by_cases hgt : m < (v :: vs).length
  · rw [if_pos hgt]
    cases vs with
    | nil => simp only [List.length_cons, List.length_nil] at hgt; omega
    | cons w ws => rw [List.dropLast_cons₂]; rfl
  · rw [if_neg hgt]
    rfl

/-- Auxiliary: when `max ≥ 1`, the value just added is the first element
of the internal list. -/
theorem LastValues.add_head (lv : LastValues) (v : String)
    (hm : 1 ≤ lv.max) :
    (lv.add v).values.head? = some v := by
  unfold LastValues.add
  exact LastValues.cons_trim_head lv.max v _ hm

/-- Auxiliary: a whole sequence of `add` calls preserves the invariant and
the `max` limit. -/
theorem LastValues.addAll_inv (adds : List String) (lv : LastValues)
    (h : lv.Inv) :
    (lv.addAll adds).Inv ∧ (lv.addAll adds).max = lv.max := by
  induction adds generalizing lv with
  | nil => exact ⟨h, rfl⟩
  | cons a as ih =>
    have := ih (lv.add a) (lv.add_inv a h)
    exact ⟨this.1, this.2.trans (lv.add_max a)⟩

/-- C6 counterexample: a `LastValues` store constructed over a persisted
list that already contains a duplicate keeps the duplicate across `add`
calls, so the claimed conjunction (length bound, no duplicates, most
recent first) fails at this concrete input. -/
theorem LastValues.claim_counterexample :
    ¬ ((((LastValues.init ["a", "a"] 10).add "a").all.length ≤ 10 ∧
        (((LastValues.init ["a", "a"] 10).add "a").all).Nodup ∧
        (((LastValues.init ["a", "a"] 10).add "a").all).head? =
          some "a")) := by
  decide

/-- C6 (amended): provided the list read from the configuration store at
construction contains no duplicates and the limit `max` is at least 1,
then after any sequence of `add` calls the list returned by `all()` has
length at most `max` and no duplicates, and after each `add v` its first
element is `v` (an already present value is moved to the front, not
duplicated). -/
theorem LastValues.amended_spec (stored : List String) (max : Nat)
    (adds : List String) (v : String)
    (hnd : stored.Nodup) (hm : 1 ≤ max) :
    (((LastValues.init stored max).addAll adds).all.length ≤ max ∧
     ((LastValues.init stored max).addAll adds).all.Nodup) ∧
    ((((LastValues.init stored max).addAll adds).add v).all.length ≤ max ∧
     (((LastValues.init stored max).addAll adds).add v).all.Nodup ∧
     (((LastValues.init stored max).addAll adds).add v).all.head? =
       some v) := by
  have hinit : (LastValues.init stored max).Inv := by
    refine ⟨hnd.sublist (List.take_sublist max stored), ?_⟩
    exact List.length_take_le max stored
  have hall := LastValues.addAll_inv adds (LastValues.init stored max) hinit
  have hmax2 : ((LastValues.init stored max).addAll adds).max = max :=
    hall.2
  have hadd := LastValues.add_inv _ v hall.1
  have hhead := LastValues.add_head ((LastValues.init stored max).addAll
    adds) v (by rw [hmax2]; exact hm)
  refine ⟨⟨?_, hall.1.1⟩, ⟨?_, hadd.1, hhead⟩⟩
  · have := hall.1.2
    rwa [hmax2] at this
  · have := hadd.2
    rwa [LastValues.add_max, hmax2] at this

/-- Witness for the amended C6 at a concrete store, limit and adds. -/
theorem LastValues.amended_spec_witness :
    (((LastValues.init ["b"] 10).addAll ["c"]).all.length ≤ 10 ∧
     ((LastValues.init ["b"] 10).addAll ["c"]).all.Nodup) ∧
    ((((LastValues.init ["b"] 10).addAll ["c"]).add "a").all.length ≤ 10 ∧
     (((LastValues.init ["b"] 10).addAll ["c"]).add "a").all.Nodup ∧
     (((LastValues.init ["b"] 10).addAll ["c"]).add "a").all.head? =
       some "a") :=
  LastValues.amended_spec ["b"] 10 ["c"] "a" (by decide) (by decide)

end TadekUI
